import Mathlib

set_option maxRecDepth 100000

/-!
Verification of the issue-replication action (`.github/actions/replicate/replicate.ts`).

The TypeScript source is shallowly embedded below.  Network-facing tracker
operations (issue listing, issue creation, comment creation) are abstracted as
an explicit oracle record, and every function returns — besides its value — the
trace of tracker calls it performed, so that ordering and absence of mutations
can be stated.  JavaScript truthiness on optional strings and numbers is made
explicit via small helpers.
-/

namespace Replicate

/-- JavaScript truthiness of a `string | undefined` value: `undefined` and the
empty string are falsy. -/
def jsFalsy : Option String → Bool
  | none => true
  | some v => decide (v = "")

/-- JavaScript truthiness of a `number | undefined` value: `undefined` and `0`
are falsy. -/
def jsTruthyNum : Option Nat → Bool
  | none => false
  | some n => decide (n ≠ 0)

/-- `issue.user` object of the webhook payload (fields consumed by the source:
`login`, `html_url`). -/
structure User where
  login : String
  html_url : String
deriving DecidableEq

/-- A label object of the webhook payload (only `name` is consumed). -/
structure Label where
  name : String
deriving DecidableEq

/-- `payload.issue` as consumed by the source: `number`, `title`, `body`,
`html_url`, `user`, `labels`.  Optional fields are those the source guards
with truthiness checks or optional chaining. -/
structure PayloadIssue where
  number : Nat
  title : String
  body : Option String
  html_url : Option String
  user : Option User
  labels : List Label
deriving DecidableEq

/-- `repository.owner` of the webhook payload (only `login` is consumed). -/
structure RepoOwner where
  login : String
deriving DecidableEq

/-- `payload.repository` as consumed by the source. -/
structure Repository where
  owner : RepoOwner
  name : String
deriving DecidableEq

/-- The webhook payload, restricted to the fields the source reads. -/
structure WebhookPayload where
  issue : Option PayloadIssue
  repository : Option Repository
deriving DecidableEq

/-- `export type Issue = {title: string, body: string, labels: string[]}` -/
structure Issue where
  title : String
  body : String
  labels : List String
deriving DecidableEq

/-- Modelled from the spec: a record of the issue directory listing (§6:
`listIssues -> list of records {number, title, body, author}`); the concrete
record type lives in the absent `issues.ts`. -/
structure IssueInfo where
  number : Nat
  title : String
  body : String
  author : String
deriving DecidableEq

/-- The process environment and action inputs read by the source:
`INT_REPO_TOKEN`, `GITHUB_TOKEN`, `core.getInput('internal_repo')` and
`core.getInput('existingIssue')` (action inputs are strings; an absent input
reads as `""`). -/
structure Env where
  intRepoToken : Option String
  githubToken : Option String
  internalRepoInput : String
  existingIssueInput : String
deriving DecidableEq

/-- One tracker API call, as recorded in a run's trace.  `ackComment` is the
acknowledgement notifier's `createComment` call on the original external
issue — the same underlying API call as `createComment`, tagged by its call
site so the acknowledgement is observable in the trace. -/
inductive Action where
  | listIssues (owner repo : String) (token : Option String) (includeClosed : Bool)
  | createIssue (owner repo title body : String) (labels : List String)
  | createComment (owner repo : String) (issueNumber : Nat) (body : String)
  | ackComment (owner repo : String) (issueNumber : Nat) (body : String)
deriving DecidableEq

/-- The tracker API surface the action consumes (spec §6), with failure made
explicit: `getIssueList` (from the absent `issues.ts`, which catches listing
errors and yields `undefined`, here `none`, distinguished from an empty list)
and the two mutating octokit calls, which may throw (`Except.error`). -/
structure Oracle where
  getIssueList : String → String → Option String → Bool → Option (List IssueInfo)
  createIssue : String → String → String → String → List String → Except String Nat
  createComment : String → String → Nat → String → Except String String

/-- `export const BOUNTY_LABELS: string[] = ['All For One', 'The Bug Slayer']` -/
def BOUNTY_LABELS : List String := ["All For One", "The Bug Slayer"]

/-- The `COMMENT_TASK_LIST` template literal. -/
def COMMENT_TASK_LIST : String :=
  "## Task List\n- [ ] Initial assessment - Please record your decision in the comment below\n  - [ ] CodeQL\n  - [ ] Security Lab\n- [ ] CodeQL: Generate result set and post the URL in the comment\n- [ ] Security Lab assessment: \n  - [ ] Assess the Vulnerability Impact, the Vulnerability Scope, and the False Positive ratio based on the provided CodeQL result set\n  - [ ] Provide feedback to the author in the PR\n- [ ] CodeQL assessment:\n  - [ ] Assess the Code Maturity and the Documentation\n  - [ ] Provide feedback to the author in the PR\n  - [ ] Merge the PR into the experimental folder\n- [ ] Score - Both teams fill the score table according to the version of the PR merged into the repository\n- [ ] Bounty Payment\n"

/-- The `COMMENT_SCORING` template literal. -/
def COMMENT_SCORING : String :=
  "## Scoring\n| Criterion | Score|\n|--- | --- |\n| Vulnerability Impact | | \n| Vulnerability Scope | | \n| False Positive | | \n| Code Maturity | | \n| Documentation | | \n\n- [ ] Reject\n- [ ] Reject with thank you reward\n- [ ] Reject with encouragement swag (Decision: Dev Advocacy)\n- [ ] Accept\n"

/-- The `COMMENT_FIRST_SUBMISSION` template literal. -/
def COMMENT_FIRST_SUBMISSION : String :=
  "## :tada: First submission for this user :tada:"

/-- One step of the `issue.labels.forEach` loop: push the label name, and if no
bounty label has matched yet, test membership and record the first match as the
bounty type. -/
def labelStep (acc : List String × Bool × String) (element : Label) :
    List String × Bool × String :=
  let ls := acc.1 ++ [element.name]
  if acc.2.1 then (ls, acc.2.1, acc.2.2)
  else if BOUNTY_LABELS.contains element.name then (ls, true, element.name)
  else (ls, false, acc.2.2)

/-- `generateInternalIssueContentFromPayload`: validates the payload, scans the
labels (first bounty-label match fixes the category), and builds the internal
issue draft; `undefined` is `none`. -/
def generateInternalIssueContentFromPayload (payload : WebhookPayload) : Option Issue :=
  match payload.issue with
  | none => none
  | some issue =>
    match issue.user with
    | none => none
    | some user =>
      if jsFalsy issue.html_url then none
      else
        let folded := issue.labels.foldl labelStep ([], false, "")
        if folded.2.1 then
          some { title := "[" ++ folded.2.2 ++ "] " ++ issue.title
                 body := "Original external [issue](" ++ issue.html_url.getD "" ++
                   ")\n\nSumitted by [" ++ user.login ++ "](" ++ user.html_url ++
                   ")\n\n" ++ issue.body.getD ""
                 labels := folded.1 }
        else none

/-- Character-list version of a prefix test, kernel-reducible. -/
def leadsWith : List Char → List Char → Bool
  | [], _ => true
  | _ :: _, [] => false
  | a :: as, b :: bs => a = b && leadsWith as bs

/-- `charsContain needle hay` holds when `needle` occurs contiguously in
`hay`; kernel-reducible substring test on character lists. -/
def charsContain (needle : List Char) : List Char → Bool
  | [] => needle.isEmpty
  | c :: tl => leadsWith needle (c :: tl) || charsContain needle tl

/-- JavaScript `hay.includes(needle)` on strings. -/
def strContains (hay needle : String) : Bool :=
  charsContain needle.data hay.data

/-- Modelled from the spec: `internalIssueAlreadyCreated` of the absent
`issues.ts` — the Duplicate Detector (§4.2): an existing mirror is a duplicate
of `targetUrl` when its body text contains `targetUrl` as a substring; the
first matching reference is returned, otherwise none.  Without a target URL no
correlation is possible and none is returned. -/
def internalIssueAlreadyCreated (targetUrl : Option String)
    (existingMirrors : List IssueInfo) : Option Nat :=
  match targetUrl with
  | none => none
  | some url => (existingMirrors.find? fun m => strContains m.body url).map IssueInfo.number

/-- Modelled from the spec: `isUserAlreadyParticipant` of the absent
`issues.ts` — the First-Submission Detector core (§4.3), negated at the call
site: an unavailable listing counts as no prior submissions found (so the
detector answers true), an absent identity counts as a participant (so the
detector answers false), otherwise membership by author. -/
def isUserAlreadyParticipant (user : Option String)
    (allSubmissions : Option (List IssueInfo)) : Bool :=
  match allSubmissions with
  | none => false
  | some submissions =>
    match user with
    | none => true
    | some u => submissions.any fun s => s.author = u

/-- JavaScript single-character `split`, kernel-reducible: splits the
character list at every occurrence of `sep`. -/
def splitChars (sep : Char) : List Char → List Char → List String
  | [], acc => [String.mk acc.reverse]
  | c :: cs, acc =>
    if c = sep then String.mk acc.reverse :: splitChars sep cs []
    else splitChars sep cs (c :: acc)

/-- `internalRepo.split('/')` of the source, on the whole string. -/
def jsSplitSlash (s : String) : List String :=
  splitChars '/' s.data []

/-- The `owner`/`repo` pair the source destructures from
`core.getInput('internal_repo') || '/'` split at `'/'` (an absent second
component — JavaScript `undefined` — is modelled as `""`; the oracle consumes
it opaquely). -/
def internalCoords (env : Env) : String × String :=
  let internalRepo := if env.internalRepoInput = "" then "/" else env.internalRepoInput
  ((jsSplitSlash internalRepo).headD "", ((jsSplitSlash internalRepo).drop 1).headD "")

/-- The JS expression `payload.issue?.user.login`: the optional chain guards
only `issue` — an absent issue yields `undefined` (here `none`), but a present
issue with an absent `user` is a TypeError (`undefined.login`), modelled as
`Except.error`. -/
def submitterLogin (payload : WebhookPayload) : Except String (Option String) :=
  match payload.issue with
  | none => Except.ok none
  | some issue =>
    match issue.user with
    | none => Except.error "TypeError: cannot read login of undefined"
    | some user => Except.ok (some user.login)

/-- `isFirstSubmission`: with no repository in the payload, false and no
listing is consulted; otherwise list the external repository's issues with the
given token, evaluate `payload.issue?.user.login` (which throws on a present
issue without a user — the throw happens after the listing call), and negate
`isUserAlreadyParticipant` on the login. -/
def isFirstSubmission (g : Oracle) (payload : WebhookPayload) (token : Option String) :
    Except String Bool × List Action :=
  match payload.repository with
  | none => (Except.ok false, [])
  | some repository =>
    let allSubmissions := g.getIssueList repository.owner.login repository.name token false
    (match submitterLogin payload with
     | Except.error e => Except.error e
     | Except.ok login => Except.ok (!isUserAlreadyParticipant login allSubmissions),
     [Action.listIssues repository.owner.login repository.name token false])

/-- Did the first-submission detector return normally and answer true?  (A
thrown detector never leads to a banner.) -/
def detectorTrue : Except String Bool → Bool
  | Except.ok b => b
  | Except.error _ => false

/-- `createInternalIssue` over the oracle: a falsy `INT_REPO_TOKEN` is an early
failure return with no tracker call; otherwise the issue creation and the
comment attachments run inside one try/catch — the first failure (a failing
call, or the TypeError `isFirstSubmission` throws on a userless issue) aborts
the rest, but `internal_ref` keeps whatever value it had when the failure was
raised, and that value is returned.  The result is the returned
`number | undefined` paired with the trace of tracker calls that succeeded
(reads recorded unconditionally, mutations when they took effect). -/
def createInternalIssue (env : Env) (g : Oracle) (payload : WebhookPayload)
    (issue : Issue) : Option Nat × List Action :=
  if jsFalsy env.intRepoToken then (none, [])
  else
    let owner := (internalCoords env).1
    let repo := (internalCoords env).2
    match g.createIssue owner repo issue.title issue.body issue.labels with
    | .error _ => (none, [])
    | .ok internal_ref =>
      let tr₀ := [Action.createIssue owner repo issue.title issue.body issue.labels]
      match g.createComment owner repo internal_ref COMMENT_TASK_LIST with
      | .error _ => (some internal_ref, tr₀)
      | .ok _ =>
        let tr₁ := tr₀ ++ [Action.createComment owner repo internal_ref COMMENT_TASK_LIST]
        match g.createComment owner repo internal_ref COMMENT_SCORING with
        | .error _ => (some internal_ref, tr₁)
        | .ok _ =>
          let tr₂ := tr₁ ++ [Action.createComment owner repo internal_ref COMMENT_SCORING]
          let fs := isFirstSubmission g payload env.githubToken
          match fs.1 with
          | .error _ => (some internal_ref, tr₂ ++ fs.2)
          | .ok first =>
            if first then
              match g.createComment owner repo internal_ref COMMENT_FIRST_SUBMISSION with
              | .error _ => (some internal_ref, tr₂ ++ fs.2)
              | .ok _ =>
                (some internal_ref,
                 tr₂ ++ fs.2 ++
                   [Action.createComment owner repo internal_ref COMMENT_FIRST_SUBMISSION])
            else (some internal_ref, tr₂ ++ fs.2)

/-- The acknowledgement comment body posted on the original issue (the
source's template literal, indentation included). -/
def ackBody (internal_issue : Nat) : String :=
  "Thanks for submitting this bounty :heart:!\n            Your submission is tracked internally with the issue reference " ++
    toString internal_issue ++ "."

/-- `commentOriginalIssue`: no-op on a falsy `GITHUB_TOKEN`, a missing
repository or a non-positive issue number; otherwise one `createComment` on
the original issue, failures caught.  The issue number is modelled as `Nat`
(`external_issue <= 0` collapses to `= 0`). -/
def commentOriginalIssue (env : Env) (g : Oracle) (payload : WebhookPayload)
    (internal_issue : Nat) : List Action :=
  let external_issue := match payload.issue with | some i => i.number | none => 0
  if jsFalsy env.githubToken then []
  else
    match payload.repository with
    | none => []
    | some repository =>
      if external_issue = 0 then []
      else
        match g.createComment repository.owner.login repository.name external_issue
            (ackBody internal_issue) with
        | .error _ => []
        | .ok _ =>
          [Action.ackComment repository.owner.login repository.name external_issue
            (ackBody internal_issue)]

/-- `checkDuplicates`: list the internal repository's open issues with
`INT_REPO_TOKEN`; an unavailable listing answers true (assume duplicate), and
otherwise the answer is the truthiness of the reference
`internalIssueAlreadyCreated` finds for `payload.issue?.html_url`. -/
def checkDuplicates (env : Env) (g : Oracle) (payload : WebhookPayload) :
    Bool × List Action :=
  let owner := (internalCoords env).1
  let repo := (internalCoords env).2
  let tr := [Action.listIssues owner repo env.intRepoToken false]
  match g.getIssueList owner repo env.intRepoToken false with
  | none => (true, tr)
  | some internalIssues =>
    if jsTruthyNum
        (internalIssueAlreadyCreated (payload.issue.bind PayloadIssue.html_url)
          internalIssues) then
      (true, tr)
    else (false, tr)

/-- The JavaScript value of `core.getInput('existingIssue') || true`: the
input string when non-empty, otherwise the boolean `true`. -/
inductive JsStrBool where
  | str (s : String)
  | bool (b : Bool)
deriving DecidableEq

/-- `x || true` on an input string (`""` when the input is absent). -/
def jsOrTrue (s : String) : JsStrBool :=
  if s = "" then JsStrBool.bool true else JsStrBool.str s

/-- JavaScript truthiness of a `string | boolean` value. -/
def JsStrBool.truthy : JsStrBool → Bool
  | .str s => decide (s ≠ "")
  | .bool b => b

/-- The `run` orchestrator: classify, optionally deduplicate (only when the
`existingIssue` flag is truthy; a duplicate or unavailable listing aborts),
create the mirror (abort on failure), and acknowledge on the original issue
only when the flag is falsy.  The value is the trace of tracker calls. -/
def run (env : Env) (g : Oracle) (payload : WebhookPayload) : List Action :=
  match generateInternalIssueContentFromPayload payload with
  | none => []
  | some internalIssue =>
    let existingIssue := jsOrTrue env.existingIssueInput
    let dup := if existingIssue.truthy then checkDuplicates env g payload else (false, [])
    if dup.1 then dup.2
    else
      let created := createInternalIssue env g payload internalIssue
      match created.1 with
      | none => dup.2 ++ created.2
      | some internal_ref =>
        if existingIssue.truthy then dup.2 ++ created.2
        else dup.2 ++ created.2 ++ commentOriginalIssue env g payload internal_ref

/-- Is this trace entry the acknowledgement notifier's comment call? -/
def isAckAction : Action → Bool
  | .ackComment _ _ _ _ => true
  | _ => false

/-- Is this trace entry an issue creation (a mirror being created)? -/
def isCreateIssueAction : Action → Bool
  | .createIssue _ _ _ _ _ => true
  | _ => false

/-- An acknowledgement comment occurs in the trace. -/
def ackPosted (tr : List Action) : Bool :=
  tr.any isAckAction

/-- The duplicate check's listing of the internal repository occurs in the
trace. -/
def dupCheckPerformed (env : Env) (tr : List Action) : Prop :=
  Action.listIssues (internalCoords env).1 (internalCoords env).2 env.intRepoToken false ∈ tr

/-- The bodies of the comments created on the mirror, in trace order. -/
def commentBodies (tr : List Action) : List String :=
  tr.filterMap fun a =>
    match a with
    | .createComment _ _ _ b => some b
    | _ => none

/-- A concrete submitter, used to instantiate the theorems below. -/
def sampleUser : User :=
  { login := "alice", html_url := "https://ex/alice" }

/-- A concrete external issue: a non-bounty label first, then both bounty
labels. -/
def sampleIssue : PayloadIssue :=
  { number := 7, title := "Heap overflow", body := some "details",
    html_url := some "https://ex/alice/repo/issues/7",
    user := some sampleUser,
    labels := [{ name := "bug" }, { name := "All For One" },
               { name := "The Bug Slayer" }] }

/-- A concrete external repository coordinate. -/
def sampleRepo : Repository :=
  { owner := { login := "ex" }, name := "repo" }

/-- The concrete issue with its `user` field absent. -/
def userlessIssue : PayloadIssue :=
  { sampleIssue with user := none }

/-- A concrete payload with a repository but a userless issue — the input on
which `payload.issue?.user.login` throws. -/
def userlessPayload : WebhookPayload :=
  { issue := some userlessIssue, repository := some sampleRepo }

/-- A concrete bounty event payload. -/
def samplePayload : WebhookPayload :=
  { issue := some sampleIssue, repository := some sampleRepo }

/-- A concrete payload that lacks the repository field. -/
def noRepoPayload : WebhookPayload :=
  { issue := some sampleIssue, repository := none }

/-- The draft the classifier produces for `samplePayload`. -/
def sampleDraft : Issue :=
  { title := "[All For One] Heap overflow",
    body := "Original external [issue](https://ex/alice/repo/issues/7)\n\nSumitted by [alice](https://ex/alice)\n\ndetails",
    labels := ["bug", "All For One", "The Bug Slayer"] }

/-- A concrete environment with both credentials and an internal repo input. -/
def sampleEnv : Env :=
  { intRepoToken := some "itok", githubToken := some "gtok",
    internalRepoInput := "own/rep", existingIssueInput := "" }

/-- A concrete environment whose `existingIssue` input is the string
"false". -/
def falseStrEnv : Env :=
  { intRepoToken := some "itok", githubToken := some "gtok",
    internalRepoInput := "own/rep", existingIssueInput := "false" }

/-- A concrete environment whose internal-tracker credential is absent. -/
def sampleEnvNoToken : Env :=
  { intRepoToken := none, githubToken := some "gtok",
    internalRepoInput := "own/rep", existingIssueInput := "" }

/-- An oracle on which every tracker call succeeds and every listing is
empty. -/
def okOracle : Oracle :=
  { getIssueList := fun _ _ _ _ => some []
    createIssue := fun _ _ _ _ _ => Except.ok 5
    createComment := fun _ _ _ _ => Except.ok "url" }

/-- An oracle whose issue listing is unavailable but whose mutations
succeed. -/
def unavailOracle : Oracle :=
  { getIssueList := fun _ _ _ _ => none
    createIssue := fun _ _ _ _ _ => Except.ok 5
    createComment := fun _ _ _ _ => Except.ok "url" }

/-- An oracle on which issue creation succeeds with reference 5 but every
comment creation fails. -/
def failCommentOracle : Oracle :=
  { getIssueList := fun _ _ _ _ => some []
    createIssue := fun _ _ _ _ _ => Except.ok 5
    createComment := fun _ _ _ _ => Except.error "network" }

/-- The flag `core.getInput('existingIssue') || true` is truthy for every
input string, the empty (absent) one included. -/
theorem truthy_jsOrTrue (s : String) : (jsOrTrue s).truthy = true := by
  unfold jsOrTrue
  by_cases h : s = ""
  · simp [h, JsStrBool.truthy]
  · simp [h, JsStrBool.truthy]

/-- The first-submission detector performs no acknowledgement call. -/
theorem ackPosted_isFirstSubmission (g : Oracle) (payload : WebhookPayload)
    (token : Option String) :
    ackPosted (isFirstSubmission g payload token).2 = false := by
  unfold isFirstSubmission
  cases payload.repository <;> simp [ackPosted, isAckAction]

/-- The mirror creator performs no acknowledgement call. -/
theorem ackPosted_createInternalIssue (env : Env) (g : Oracle)
    (payload : WebhookPayload) (issue : Issue) :
    ackPosted (createInternalIssue env g payload issue).2 = false := by
  have hfs := ackPosted_isFirstSubmission g payload env.githubToken
  unfold ackPosted at hfs ⊢
  unfold createInternalIssue
  cases htok : jsFalsy env.intRepoToken with
  | true => simp
  | false =>
    simp only [Bool.false_eq_true, if_false]
    cases hci : g.createIssue (internalCoords env).1 (internalCoords env).2
        issue.title issue.body issue.labels with
    | error e => simp
    | ok n =>
      simp only []
      cases hc1 : g.createComment (internalCoords env).1 (internalCoords env).2
          n COMMENT_TASK_LIST with
      | error e => simp [isAckAction]
      | ok u₁ =>
        simp only []
        cases hc2 : g.createComment (internalCoords env).1 (internalCoords env).2
            n COMMENT_SCORING with
        | error e => simp [isAckAction]
        | ok u₂ =>
          simp only []
          cases hfs1 : (isFirstSubmission g payload env.githubToken).1 with
          | error e => simp [isAckAction, List.any_append, hfs]
          | ok first =>
            cases first with
            | false => simp [isAckAction, List.any_append, hfs]
            | true =>
              simp only [if_true]
              cases hc3 : g.createComment (internalCoords env).1 (internalCoords env).2
                  n COMMENT_FIRST_SUBMISSION with
              | error e => simp [isAckAction, List.any_append, hfs]
              | ok u₃ => simp [isAckAction, List.any_append, hfs]

/-- The duplicate check performs no acknowledgement call. -/
theorem ackPosted_checkDuplicates (env : Env) (g : Oracle) (payload : WebhookPayload) :
    ackPosted (checkDuplicates env g payload).2 = false := by
  unfold checkDuplicates ackPosted
  cases hl : g.getIssueList (internalCoords env).1 (internalCoords env).2
      env.intRepoToken false with
  | none => simp only [hl]; simp [isAckAction]
  | some l =>
    simp only [hl]
    cases hd : jsTruthyNum
        (internalIssueAlreadyCreated (payload.issue.bind PayloadIssue.html_url) l) <;>
      simp [hd, isAckAction]

/-- With the `existingIssue` flag necessarily truthy, the orchestrator's trace
is its duplicate-check trace, extended — when no duplicate was assumed — by
the mirror creator's trace; the acknowledgement branch is unreachable. -/
theorem run_eq_of_flag (env : Env) (g : Oracle) (payload : WebhookPayload) :
    run env g payload =
      match generateInternalIssueContentFromPayload payload with
      | none => []
      | some internalIssue =>
        if (checkDuplicates env g payload).1 then (checkDuplicates env g payload).2
        else
          (checkDuplicates env g payload).2 ++
            (createInternalIssue env g payload internalIssue).2 := by
  unfold run
  cases hgen : generateInternalIssueContentFromPayload payload with
  | none => rfl
  | some internalIssue =>
    simp only [truthy_jsOrTrue, if_true]
    cases hdup : (checkDuplicates env g payload).1 with
    | true => simp [hdup]
    | false =>
      simp only [hdup, Bool.false_eq_true, if_false]
      cases hc : (createInternalIssue env g payload internalIssue).1 <;>
        simp [truthy_jsOrTrue]

/-- Reduction of one loop step once a bounty label already matched. -/
theorem labelStep_true (ls : List String) (t : String) (hd : Label) :
    labelStep (ls, true, t) hd = (ls ++ [hd.name], true, t) := rfl

/-- Reduction of one loop step on the first bounty-label match. -/
theorem labelStep_false_pos (ls : List String) (t : String) (hd : Label)
    (h : BOUNTY_LABELS.contains hd.name = true) :
    labelStep (ls, false, t) hd = (ls ++ [hd.name], true, hd.name) := by
  simp [labelStep, h]
  simpa using h

/-- Reduction of one loop step on a non-bounty label before any match. -/
theorem labelStep_false_neg (ls : List String) (t : String) (hd : Label)
    (h : BOUNTY_LABELS.contains hd.name = false) :
    labelStep (ls, false, t) hd = (ls ++ [hd.name], false, t) := by
  simp [labelStep, h]
  simpa using h

/-- Characterization of the label loop: it appends all label names, reports
whether a bounty label occurs, and — when no match happened before the loop —
selects the first bounty label in list order as the category. -/
theorem foldl_labelStep (labels : List Label) (ls : List String) (b : Bool) (t : String) :
    labels.foldl labelStep (ls, b, t) =
      (ls ++ labels.map Label.name,
       b || labels.any (fun l => BOUNTY_LABELS.contains l.name),
       if b then t
       else ((labels.map Label.name).find? (fun n => BOUNTY_LABELS.contains n)).getD t) := by
  induction labels generalizing ls b t with
  | nil => simp
  | cons hd tl ih =>
    cases b with
    | true =>
      rw [List.foldl_cons, labelStep_true, ih]
      simp [List.append_assoc]
    | false =>
      cases hm : BOUNTY_LABELS.contains hd.name with
      | true =>
        rw [List.foldl_cons, labelStep_false_pos _ _ _ hm, ih]
        rw [List.map_cons, List.any_cons, hm, List.find?_cons_of_pos _ hm]
        simp [List.append_assoc]
      | false =>
        rw [List.foldl_cons, labelStep_false_neg _ _ _ hm, ih]
        rw [List.map_cons, List.any_cons, hm,
          List.find?_cons_of_neg _ (by simpa using hm)]
        simp [List.append_assoc]
/-- The duplicate check's trace is exactly one listing of the internal
repository with the internal credential. -/
theorem checkDuplicates_trace (env : Env) (g : Oracle) (payload : WebhookPayload) :
    (checkDuplicates env g payload).2 =
      [Action.listIssues (internalCoords env).1 (internalCoords env).2
        env.intRepoToken false] := by
  unfold checkDuplicates
  cases hl : g.getIssueList (internalCoords env).1 (internalCoords env).2
      env.intRepoToken false with
  | none => simp only [hl]
  | some l =>
    simp only [hl]
    cases hd : jsTruthyNum
        (internalIssueAlreadyCreated (payload.issue.bind PayloadIssue.html_url) l) <;>
      simp [hd]

/-- A run never posts the acknowledgement comment. -/
theorem ackPosted_run (env : Env) (g : Oracle) (payload : WebhookPayload) :
    ackPosted (run env g payload) = false := by
  rw [run_eq_of_flag]
  cases hgen : generateInternalIssueContentFromPayload payload with
  | none => simp [ackPosted]
  | some internalIssue =>
    simp only [hgen]
    cases hdup : (checkDuplicates env g payload).1 with
    | true =>
      simp only [hdup, if_true]
      exact ackPosted_checkDuplicates env g payload
    | false =>
      simp only [hdup, Bool.false_eq_true, if_false]
      have h₁ := ackPosted_checkDuplicates env g payload
      have h₂ := ackPosted_createInternalIssue env g payload internalIssue
      unfold ackPosted at h₁ h₂ ⊢
      rw [List.any_append, h₁, h₂]
      rfl

/-- The first-submission detector creates no comments. -/
theorem commentBodies_isFirstSubmission (g : Oracle) (payload : WebhookPayload)
    (token : Option String) :
    commentBodies (isFirstSubmission g payload token).2 = [] := by
  unfold isFirstSubmission
  cases payload.repository <;> simp [commentBodies]

/-- Claim C1 counterexample: with the internal credential present, issue
creation succeeding with reference 5 and every comment attachment failing,
`createInternalIssue` still returns reference 5 to its caller — a failure
during comment attachment does not make the operation return failure, contrary
to the claim. -/
theorem createInternalIssue_comment_failure_returns_ref :
    failCommentOracle.createComment "own" "rep" 5 COMMENT_TASK_LIST =
        Except.error "network" ∧
    (createInternalIssue sampleEnv failCommentOracle samplePayload sampleDraft).1 =
        some 5 ∧
    ¬ (createInternalIssue sampleEnv failCommentOracle samplePayload sampleDraft).1 =
        none :=
  ⟨rfl, by decide, by decide⟩

/-- Claim C1 (amended): with the internal credential present, a failure during
issue creation is caught and `createInternalIssue` returns failure
(`undefined`); a failure during any comment attachment is also caught, but the
operation then still returns the reference of the already created issue
(partial creation is tolerated and not rolled back). -/
theorem createInternalIssue_failure_policy (env : Env) (g : Oracle)
    (payload : WebhookPayload) (issue : Issue)
    (htok : jsFalsy env.intRepoToken = false) :
    (∀ e, g.createIssue (internalCoords env).1 (internalCoords env).2
        issue.title issue.body issue.labels = Except.error e →
      (createInternalIssue env g payload issue).1 = none) ∧
    (∀ n, g.createIssue (internalCoords env).1 (internalCoords env).2
        issue.title issue.body issue.labels = Except.ok n →
      (createInternalIssue env g payload issue).1 = some n) := by
  constructor
  · intro e he
    unfold createInternalIssue
    simp only [htok, Bool.false_eq_true, if_false, he]
  · intro n hn
    unfold createInternalIssue
    simp only [htok, Bool.false_eq_true, if_false, hn]
    cases hc1 : g.createComment (internalCoords env).1 (internalCoords env).2
        n COMMENT_TASK_LIST with
    | error e => simp only [hc1]
    | ok u₁ =>
      simp only [hc1]
      cases hc2 : g.createComment (internalCoords env).1 (internalCoords env).2
          n COMMENT_SCORING with
      | error e => simp only [hc2]
      | ok u₂ =>
        simp only [hc2]
        cases hfs : (isFirstSubmission g payload env.githubToken).1 with
        | error e => simp [hfs]
        | ok first =>
          cases first with
          | false => simp [hfs]
          | true =>
            simp only [hfs, if_true]
            cases hc3 : g.createComment (internalCoords env).1 (internalCoords env).2
                n COMMENT_FIRST_SUBMISSION with
            | error e => simp only [hc3]
            | ok u₃ => simp only [hc3]

/-- Witness for the amended C1 at a concrete input: creation succeeds with
reference 5, comments fail, and the reference is returned. -/
theorem createInternalIssue_failure_policy_witness :
    jsFalsy sampleEnv.intRepoToken = false ∧
    (createInternalIssue sampleEnv failCommentOracle samplePayload sampleDraft).1 =
      some 5 :=
  ⟨by decide,
   (createInternalIssue_failure_policy sampleEnv failCommentOracle samplePayload
      sampleDraft (by decide)).2 5 rfl⟩

/-- Claim C2: the acknowledgement comment on the original issue is posted only
in runs that performed the duplicate check, and it is skipped whenever the
configuration flag computed from the `existingIssue` input (which indicates a
pre-existing issue) is truthy. -/
theorem run_ack_requires_dup_check (env : Env) (g : Oracle) (payload : WebhookPayload) :
    (ackPosted (run env g payload) = true → dupCheckPerformed env (run env g payload)) ∧
    ((jsOrTrue env.existingIssueInput).truthy = true →
      ackPosted (run env g payload) = false) := by
  constructor
  · intro h
    rw [ackPosted_run] at h
    exact absurd h (by simp)
  · intro _
    exact ackPosted_run env g payload

/-- Witness for C2 at a concrete input. -/
theorem run_ack_requires_dup_check_witness :
    (jsOrTrue sampleEnv.existingIssueInput).truthy = true ∧
    ackPosted (run sampleEnv okOracle samplePayload) = false :=
  ⟨by decide, (run_ack_requires_dup_check sampleEnv okOracle samplePayload).2 (by decide)⟩

/-- Claim C3: when the internal repository's issue listing is unavailable
(distinguished from an empty listing), the duplicate check answers
"duplicate", and the orchestrator's run creates no mirror issue. -/
theorem checkDuplicates_unavailable_aborts (env : Env) (g : Oracle)
    (payload : WebhookPayload)
    (h : g.getIssueList (internalCoords env).1 (internalCoords env).2
        env.intRepoToken false = none) :
    (checkDuplicates env g payload).1 = true ∧
    ∀ a ∈ run env g payload, isCreateIssueAction a = false := by
  have hchk : (checkDuplicates env g payload).1 = true := by
    unfold checkDuplicates
    simp only [h]
  refine ⟨hchk, ?_⟩
  rw [run_eq_of_flag]
  cases hgen : generateInternalIssueContentFromPayload payload with
  | none => simp
  | some internalIssue =>
    simp only [hgen, hchk, if_true]
    rw [checkDuplicates_trace]
    intro a ha
    simp only [List.mem_singleton] at ha
    subst ha
    rfl

/-- Witness for C3 at a concrete input. -/
theorem checkDuplicates_unavailable_aborts_witness :
    unavailOracle.getIssueList (internalCoords sampleEnv).1 (internalCoords sampleEnv).2
        sampleEnv.intRepoToken false = none ∧
    ((checkDuplicates sampleEnv unavailOracle samplePayload).1 = true ∧
      ∀ a ∈ run sampleEnv unavailOracle samplePayload, isCreateIssueAction a = false) :=
  ⟨rfl, checkDuplicates_unavailable_aborts sampleEnv unavailOracle samplePayload rfl⟩

/-- Claim C4 counterexample: a payload with a repository present but a
userless issue, with the submissions listing unavailable — instead of
returning true, `isFirstSubmission` throws the TypeError of
`payload.issue?.user.login` (after the listing call), so the universal
"returns true" claim fails at this input. -/
theorem isFirstSubmission_userless_throws :
    userlessPayload.repository = some sampleRepo ∧
    unavailOracle.getIssueList sampleRepo.owner.login sampleRepo.name
        (some "gtok") false = none ∧
    (isFirstSubmission unavailOracle userlessPayload (some "gtok")).1 =
      Except.error "TypeError: cannot read login of undefined" ∧
    ¬ (isFirstSubmission unavailOracle userlessPayload (some "gtok")).1 =
      Except.ok true :=
  ⟨rfl, rfl, rfl, fun h => Except.noConfusion h⟩

/-- Claim C4 (amended): for a payload with a repository present whose
submitter-login evaluation does not throw (issue absent, or issue with a
user), an unavailable submissions listing makes `isFirstSubmission` return
true (asymmetric to the duplicate check's assume-duplicate policy); on a
present issue without a user the source instead throws a TypeError. -/
theorem isFirstSubmission_unavailable_returns_true (g : Oracle)
    (payload : WebhookPayload) (token : Option String) (repo : Repository)
    (login : Option String)
    (hrepo : payload.repository = some repo)
    (hlogin : submitterLogin payload = Except.ok login)
    (h : g.getIssueList repo.owner.login repo.name token false = none) :
    (isFirstSubmission g payload token).1 = Except.ok true := by
  unfold isFirstSubmission
  simp only [hrepo, h, hlogin]
  rfl

/-- Witness for the amended C4 at a concrete input. -/
theorem isFirstSubmission_unavailable_returns_true_witness :
    samplePayload.repository = some sampleRepo ∧
    submitterLogin samplePayload = Except.ok (some "alice") ∧
    unavailOracle.getIssueList sampleRepo.owner.login sampleRepo.name
        (some "gtok") false = none ∧
    (isFirstSubmission unavailOracle samplePayload (some "gtok")).1 =
      Except.ok true :=
  ⟨rfl, rfl, rfl,
   isFirstSubmission_unavailable_returns_true unavailOracle samplePayload
     (some "gtok") sampleRepo (some "alice") rfl rfl rfl⟩

/-- Claim C5: on a valid event whose label list has a first bounty-label match
`c` (in list order — later matches cannot change it), the classifier produces
a draft titled `[c] <original title>` whose label list is exactly all the
event's label names. -/
theorem classifier_first_bounty_label (payload : WebhookPayload) (issue : PayloadIssue)
    (user : User) (c : String)
    (hiss : payload.issue = some issue)
    (huser : issue.user = some user)
    (hurl : jsFalsy issue.html_url = false)
    (hfind : (issue.labels.map Label.name).find?
        (fun n => BOUNTY_LABELS.contains n) = some c) :
    ∃ draft, generateInternalIssueContentFromPayload payload = some draft ∧
      draft.title = "[" ++ c ++ "] " ++ issue.title ∧
      draft.labels = issue.labels.map Label.name := by
  have hmem : c ∈ issue.labels.map Label.name := List.mem_of_find?_eq_some hfind
  have hp : BOUNTY_LABELS.contains c = true := List.find?_some hfind
  have hany : (issue.labels.any fun l => BOUNTY_LABELS.contains l.name) = true := by
    rcases List.mem_map.mp hmem with ⟨l, hl, hlc⟩
    refine List.any_eq_true.mpr ⟨l, hl, ?_⟩
    rw [hlc]
    exact hp
  unfold generateInternalIssueContentFromPayload
  simp only [hiss, huser, hurl, Bool.false_eq_true, if_false, foldl_labelStep,
    List.nil_append, Bool.false_or, hany, if_true, hfind, Option.getD_some]
  exact ⟨_, rfl, rfl, rfl⟩

/-- Witness for C5 at a concrete input: the first bounty label in list order
is "All For One"; "The Bug Slayer" appears later and does not override it. -/
theorem classifier_first_bounty_label_witness :
    samplePayload.issue = some sampleIssue ∧
    sampleIssue.user = some sampleUser ∧
    jsFalsy sampleIssue.html_url = false ∧
    (sampleIssue.labels.map Label.name).find?
        (fun n => BOUNTY_LABELS.contains n) = some "All For One" ∧
    ∃ draft, generateInternalIssueContentFromPayload samplePayload = some draft ∧
      draft.title = "[" ++ "All For One" ++ "] " ++ sampleIssue.title ∧
      draft.labels = sampleIssue.labels.map Label.name :=
  ⟨rfl, rfl, by decide, by decide,
   classifier_first_bounty_label samplePayload sampleIssue sampleUser "All For One"
     rfl rfl (by decide) (by decide)⟩

/-- Claim C6: with the internal-tracker credential absent (falsy),
`createInternalIssue` performs no tracker call at all (empty trace: no issue,
no comments) and returns `undefined` — a failure signal, not an error. -/
theorem createInternalIssue_no_token_noop (env : Env) (g : Oracle)
    (payload : WebhookPayload) (issue : Issue)
    (h : jsFalsy env.intRepoToken = true) :
    createInternalIssue env g payload issue = (none, []) := by
  unfold createInternalIssue
  simp [h]

/-- Witness for C6 at a concrete input. -/
theorem createInternalIssue_no_token_noop_witness :
    jsFalsy sampleEnvNoToken.intRepoToken = true ∧
    createInternalIssue sampleEnvNoToken okOracle samplePayload sampleDraft =
      (none, []) :=
  ⟨rfl, createInternalIssue_no_token_noop sampleEnvNoToken okOracle samplePayload
    sampleDraft rfl⟩

/-- Claim C7: on a successful mirror creation with all comment calls
succeeding, the comments attached are, in order, the task-list comment, the
scoring comment, and the first-submission banner exactly when the detector
returns (without throwing) and answers true; in every other case — the
detector answers false, or it throws the userless-issue TypeError into the
surrounding catch — exactly the two fixed comments are attached. -/
theorem createInternalIssue_comment_order (env : Env) (g : Oracle)
    (payload : WebhookPayload) (issue : Issue) (n : Nat)
    (htok : jsFalsy env.intRepoToken = false)
    (hci : g.createIssue (internalCoords env).1 (internalCoords env).2
        issue.title issue.body issue.labels = Except.ok n)
    (hcmt : ∀ b, ∃ u, g.createComment (internalCoords env).1 (internalCoords env).2
        n b = Except.ok u) :
    commentBodies (createInternalIssue env g payload issue).2 =
      [COMMENT_TASK_LIST, COMMENT_SCORING] ++
        (if detectorTrue (isFirstSubmission g payload env.githubToken).1 then
          [COMMENT_FIRST_SUBMISSION] else []) := by
  obtain ⟨u₁, h₁⟩ := hcmt COMMENT_TASK_LIST
  obtain ⟨u₂, h₂⟩ := hcmt COMMENT_SCORING
  obtain ⟨u₃, h₃⟩ := hcmt COMMENT_FIRST_SUBMISSION
  have hfs := commentBodies_isFirstSubmission g payload env.githubToken
  unfold commentBodies at hfs ⊢
  unfold createInternalIssue
  simp only [htok, Bool.false_eq_true, if_false, hci, h₁, h₂]
  cases hfs1 : (isFirstSubmission g payload env.githubToken).1 with
  | error e => simp [detectorTrue, List.filterMap_append, hfs]
  | ok first =>
    cases first with
    | false => simp [detectorTrue, List.filterMap_append, hfs]
    | true =>
      simp only [if_true, h₃]
      simp [detectorTrue, List.filterMap_append, hfs]

/-- Witness for C7 at a concrete input: alice has no prior submission in the
(empty) listing, so three comments are attached in order. -/
theorem createInternalIssue_comment_order_witness :
    jsFalsy sampleEnv.intRepoToken = false ∧
    okOracle.createIssue (internalCoords sampleEnv).1 (internalCoords sampleEnv).2
        sampleDraft.title sampleDraft.body sampleDraft.labels = Except.ok 5 ∧
    commentBodies (createInternalIssue sampleEnv okOracle samplePayload sampleDraft).2 =
      [COMMENT_TASK_LIST, COMMENT_SCORING] ++
        (if detectorTrue (isFirstSubmission okOracle samplePayload
            sampleEnv.githubToken).1 then
          [COMMENT_FIRST_SUBMISSION] else []) :=
  ⟨by decide, rfl,
   createInternalIssue_comment_order sampleEnv okOracle samplePayload sampleDraft 5
     (by decide) rfl (fun b => ⟨"url", rfl⟩)⟩

/-- Claim C8: the value the orchestrator computes from the `existingIssue`
input via `|| true` is truthy for every input string — the non-empty ones,
"false" included, and the absent (empty) one — so on every run that passes the
classifier the duplicate check is performed and the acknowledgement comment is
never posted. -/
theorem existingIssue_flag_always_truthy (env : Env) (g : Oracle)
    (payload : WebhookPayload) (internalIssue : Issue)
    (hgen : generateInternalIssueContentFromPayload payload = some internalIssue) :
    (jsOrTrue env.existingIssueInput).truthy = true ∧
    dupCheckPerformed env (run env g payload) ∧
    ackPosted (run env g payload) = false := by
  refine ⟨truthy_jsOrTrue _, ?_, ackPosted_run env g payload⟩
  unfold dupCheckPerformed
  rw [run_eq_of_flag]
  simp only [hgen]
  cases hdup : (checkDuplicates env g payload).1 with
  | true =>
    simp only [hdup, if_true]
    rw [checkDuplicates_trace]
    exact List.mem_singleton.mpr rfl
  | false =>
    simp only [hdup, Bool.false_eq_true, if_false]
    rw [checkDuplicates_trace]
    simp

/-- Witness for C8 at a concrete input, with the input string "false". -/
theorem existingIssue_flag_always_truthy_witness :
    generateInternalIssueContentFromPayload samplePayload = some sampleDraft ∧
    ((jsOrTrue falseStrEnv.existingIssueInput).truthy = true ∧
      dupCheckPerformed falseStrEnv (run falseStrEnv okOracle samplePayload) ∧
      ackPosted (run falseStrEnv okOracle samplePayload) = false) :=
  ⟨by decide,
   existingIssue_flag_always_truthy falseStrEnv okOracle samplePayload sampleDraft
     (by decide)⟩

/-- Claim C9: for a payload with a repository, the only listing
`isFirstSubmission` reads is the issue list of that (external) repository
queried with the token handed to it — in `createInternalIssue` that token is
`GITHUB_TOKEN`, the external-repository credential; whenever the
submitter-login evaluation returns (does not throw), the decision equals a
function of exactly that listing; and any oracle agreeing on that one listing
yields the same result (so the internal mirror list is never consulted). -/
theorem isFirstSubmission_queries_external_repo (env : Env) (g : Oracle)
    (payload : WebhookPayload) (repo : Repository)
    (hrepo : payload.repository = some repo) :
    (isFirstSubmission g payload env.githubToken).2 =
      [Action.listIssues repo.owner.login repo.name env.githubToken false] ∧
    (∀ login, submitterLogin payload = Except.ok login →
      (isFirstSubmission g payload env.githubToken).1 =
        Except.ok (!isUserAlreadyParticipant login
          (g.getIssueList repo.owner.login repo.name env.githubToken false))) ∧
    ∀ g₂ : Oracle,
      g₂.getIssueList repo.owner.login repo.name env.githubToken false =
          g.getIssueList repo.owner.login repo.name env.githubToken false →
      (isFirstSubmission g₂ payload env.githubToken).1 =
        (isFirstSubmission g payload env.githubToken).1 := by
  unfold isFirstSubmission
  simp only [hrepo]
  refine ⟨by first | rfl | trivial, ?_, ?_⟩
  · intro login hlogin
    simp only [hlogin]
  · intro g₂ h
    simp only [h]

/-- Witness for C9 at a concrete input. -/
theorem isFirstSubmission_queries_external_repo_witness :
    samplePayload.repository = some sampleRepo ∧
    submitterLogin samplePayload = Except.ok (some "alice") ∧
    (isFirstSubmission okOracle samplePayload sampleEnv.githubToken).2 =
      [Action.listIssues sampleRepo.owner.login sampleRepo.name
        sampleEnv.githubToken false] ∧
    (isFirstSubmission okOracle samplePayload sampleEnv.githubToken).1 =
      Except.ok (!isUserAlreadyParticipant (some "alice")
        (okOracle.getIssueList sampleRepo.owner.login sampleRepo.name
          sampleEnv.githubToken false)) :=
  ⟨rfl, rfl,
   (isFirstSubmission_queries_external_repo sampleEnv okOracle samplePayload
      sampleRepo rfl).1,
   (isFirstSubmission_queries_external_repo sampleEnv okOracle samplePayload
      sampleRepo rfl).2.1 (some "alice") rfl⟩

/-- Claim C10: for a payload without a repository field, `isFirstSubmission`
returns false with an empty trace — no submissions listing is consulted (the
result holds for every oracle). -/
theorem isFirstSubmission_no_repository (g : Oracle) (payload : WebhookPayload)
    (token : Option String) (h : payload.repository = none) :
    isFirstSubmission g payload token = (Except.ok false, []) := by
  unfold isFirstSubmission
  simp [h]

/-- Witness for C10 at a concrete input. -/
theorem isFirstSubmission_no_repository_witness :
    noRepoPayload.repository = none ∧
    isFirstSubmission okOracle noRepoPayload (some "gtok") = (Except.ok false, []) :=
  ⟨rfl, isFirstSubmission_no_repository okOracle noRepoPayload (some "gtok") rfl⟩

end Replicate
